import Mathlib

/-!
Verification of the tidal-marsh evolution core in
`pymarshmorpho2d/marsh_evolver.py` (class `MarshEvolver`).

Embedding conventions:
* Machine floats are modelled as exact rationals (`ℚ`); per-node numpy
  arrays are `List ℚ` (or `List Bool` for the vegetation mask), and the
  vectorized numpy expressions become per-node functions mapped over the
  elevation array.
* Rational division is total in Lean (`q / 0 = 0`); where the source would
  produce `inf`/`nan` from a zero denominator we only ever reason about the
  denominator itself, never about the totalized quotient.
* Python attribute rebinding versus in-place array writes is modelled
  explicitly: the state keeps both the array a `self._x` attribute currently
  refers to and the array registered in the grid's field store
  (`grid.at_node[...]`).  `self._water_depth`, `self._veg_is_present` and
  `self._roughness` are only ever written through `[:]` or boolean-mask
  assignment, so attribute and grid array always coincide and are stored
  once.  `self._fully_wet_depth` (line 121) and `self._vegetation`
  (line 135) are rebound to freshly allocated arrays, so for those two
  fields the attribute array and the grid array are tracked separately.
-/

namespace MarshEvolver

/-- Scalar constructor parameters of `MarshEvolver.__init__`
(grid elevations are carried separately in `MarshState`). -/
structure MarshParams where
  rel_sl_rise_rate : ℚ
  tidal_range : ℚ
  tidal_range_for_veg : ℚ
  roughness_with_veg : ℚ
  roughness_without_veg : ℚ

/-- Line 104: `self._tidal_half_range = tidal_range / 2.0`. -/
def tidal_half_range (p : MarshParams) : ℚ :=
  p.tidal_range / 2

/-- Lines 111-112: `self._min_elev_for_veg_growth =
-(0.237 * tidal_range_for_veg - 0.092)`. -/
def min_elev_for_veg_growth (p : MarshParams) : ℚ :=
  -(237 / 1000 * p.tidal_range_for_veg - 92 / 1000)

/-- Line 113: `self._max_elev_for_veg_growth = tidal_range_for_veg / 2.0`. -/
def max_elev_for_veg_growth (p : MarshParams) : ℚ :=
  p.tidal_range_for_veg / 2

/-- The mutable per-node state of a `MarshEvolver` instance: the elevation
field, the scalar sea level, and the derived output arrays.  For
`fully_wet__depth` and `vegetation` the array currently bound to the
attribute (`attrib_*`) and the array registered in the grid field store
(`grid_*`) are tracked separately, because `get_water_depth` and
`update_vegetation` rebind the attributes to new arrays. -/
structure MarshState where
  elev : List ℚ
  mean_sea_level : ℚ
  attrib_fully_wet_depth : List ℚ
  grid_fully_wet_depth : List ℚ
  water_depth : List ℚ
  veg_is_present : List Bool
  attrib_vegetation : List ℚ
  grid_vegetation : List ℚ
  roughness : List ℚ

/-- Construction (`__init__`, lines 88-100): `initialize_output_fields`
creates the five output fields zero-filled (`False` for the boolean mask),
the attributes are references to those grid arrays, and
`self._mean_sea_level = 0.0`. -/
def initMarsh (elev : List ℚ) : MarshState :=
  let zeros := elev.map (fun _ => (0 : ℚ))
  let falses := elev.map (fun _ => false)
  { elev := elev
    mean_sea_level := 0
    attrib_fully_wet_depth := zeros
    grid_fully_wet_depth := zeros
    water_depth := zeros
    veg_is_present := falses
    attrib_vegetation := zeros
    grid_vegetation := zeros
    roughness := zeros }

/-- Lines 118-120: `depth_at_mean_high_water =
np.maximum((-elev) + mean_sea_level + tidal_half_range, 0.0)`, per node. -/
def depth_at_mean_high_water (p : MarshParams) (msl e : ℚ) : ℚ :=
  max (-e + msl + tidal_half_range p) 0

/-- Lines 121-123: `0.5 * (dmhw + np.maximum(dmhw - tidal_range, 0.0))`,
per node (the array this value is collected into is a fresh allocation;
see `get_water_depth`). -/
def fully_wet_depth_raw (p : MarshParams) (msl e : ℚ) : ℚ :=
  1 / 2 * (depth_at_mean_high_water p msl e
            + max (depth_at_mean_high_water p msl e - p.tidal_range) 0)

/-- Line 124: `fully_wet_depth[fully_wet_depth < min_depth] = min_depth`,
per node. -/
def fully_wet_depth_node (p : MarshParams) (min_depth msl e : ℚ) : ℚ :=
  if fully_wet_depth_raw p msl e < min_depth then min_depth
  else fully_wet_depth_raw p msl e

/-- Lines 125-128: `water_depth[:] = fully_wet_depth` followed by
`water_depth[elev > mean_sea_level + tidal_half_range] = 0.0`, per node. -/
def water_depth_node (p : MarshParams) (min_depth msl e : ℚ) : ℚ :=
  if e > msl + tidal_half_range p then 0
  else fully_wet_depth_node p min_depth msl e

/-- Method `get_water_depth(min_depth=0.01)` (lines 115-128).  Line 121 rebinds
`self._fully_wet_depth` to the freshly computed array, so the grid's
registered `fully_wet__depth` array is left untouched; line 125 writes
`self._water_depth` in place through `[:]`. -/
def get_water_depth (p : MarshParams) (min_depth : ℚ) (s : MarshState) :
    MarshState :=
  { s with
    attrib_fully_wet_depth :=
      s.elev.map (fully_wet_depth_node p min_depth s.mean_sea_level)
    water_depth :=
      s.elev.map (water_depth_node p min_depth s.mean_sea_level) }

/-- Lines 133-134: `veg_is_present[:] = height_above_msl >
min_elev_for_veg_growth`, per node. -/
def veg_is_present_node (p : MarshParams) (msl e : ℚ) : Bool :=
  decide (e - msl > min_elev_for_veg_growth p)

/-- Lines 135-142: the raw parabola
`4 * (h - max_elev) * (min_elev - h) / (min_elev - max_elev)**2`
followed by the two mask overrides zeroing it where `h > max_elev`
(line 141) and where `h < min_elev` (line 142), per node. -/
def vegetation_node (p : MarshParams) (msl e : ℚ) : ℚ :=
  let h := e - msl
  let raw := 4 * (h - max_elev_for_veg_growth p)
               * (min_elev_for_veg_growth p - h)
               / (min_elev_for_veg_growth p - max_elev_for_veg_growth p) ^ 2
  let v1 := if h > max_elev_for_veg_growth p then 0 else raw
  if h < min_elev_for_veg_growth p then 0 else v1

/-- Method `update_vegetation()` (lines 130-142).  Line 133 writes
`self._veg_is_present` in place through `[:]`; line 135 rebinds
`self._vegetation` to a freshly computed array, so the grid's registered
`vegetation` array is left untouched. -/
def update_vegetation (p : MarshParams) (s : MarshState) : MarshState :=
  { s with
    veg_is_present := s.elev.map (veg_is_present_node p s.mean_sea_level)
    attrib_vegetation := s.elev.map (vegetation_node p s.mean_sea_level) }

/-- Method `update_roughness()` (lines 144-147): `roughness[:] =
roughness_without_veg` then `roughness[veg_is_present] =
roughness_with_veg`, in place. -/
def update_roughness (p : MarshParams) (s : MarshState) : MarshState :=
  { s with
    roughness := s.veg_is_present.map
      (fun b => if b then p.roughness_with_veg else p.roughness_without_veg) }

/-- Line 153: `self._mean_sea_level += self._rel_sl_rise_rate * dt`. -/
def advance_sea_level (p : MarshParams) (dt : ℚ) (s : MarshState) :
    MarshState :=
  { s with mean_sea_level := s.mean_sea_level + p.rel_sl_rise_rate * dt }

/-- Method `run_one_step(dt)` (lines 149-162): advance sea level, then
`get_water_depth()` (with its default `min_depth=0.01`), then
`update_vegetation()`, then `update_roughness()`. -/
def run_one_step (p : MarshParams) (dt : ℚ) (s : MarshState) : MarshState :=
  update_roughness p
    (update_vegetation p
      (get_water_depth p (1 / 100)
        (advance_sea_level p dt s)))

/-! ### Reference algorithm from the specification (for claim C1)

These definitions transcribe the spec's reference algorithm word for word
(§4.2, steps 1-4), to be compared with the embedding of the source. -/

/-- Spec §4.2 step 1:
`depth_at_mean_high_water[i] = max(0, -elevation[i] + mean_sea_level +
half_range)` with `half_range = tidal_range / 2`. -/
def spec_depth_at_mean_high_water (msl tidal_range e : ℚ) : ℚ :=
  max 0 (-e + msl + tidal_range / 2)

/-- Spec §4.2 steps 2-3: `fully_wet_depth[i] = 0.5 *
(depth_at_mean_high_water[i] + max(0, depth_at_mean_high_water[i] -
tidal_range))`, then clamped below by `min_depth`. -/
def spec_fully_wet_depth (min_depth msl tidal_range e : ℚ) : ℚ :=
  max (1 / 2 * (spec_depth_at_mean_high_water msl tidal_range e
                 + max 0 (spec_depth_at_mean_high_water msl tidal_range e
                           - tidal_range)))
      min_depth

/-- Spec §4.2 step 4: `water_depth[i] = fully_wet_depth[i]`, except
`water_depth[i] = 0` wherever `elevation[i] > mean_sea_level + half_range`. -/
def spec_water_depth (min_depth msl tidal_range e : ℚ) : ℚ :=
  if e > msl + tidal_range / 2 then 0
  else spec_fully_wet_depth min_depth msl tidal_range e

/-! ### Concrete configurations used in evaluations -/

/-- The constructor's default parameter values (lines 67-72):
`rel_sl_rise_rate=2.74e-6`, `tidal_range=3.1`, `tidal_range_for_veg=3.1`,
`roughness_with_veg=0.1`, `roughness_without_veg=0.02`. -/
def defaultParams : MarshParams :=
  { rel_sl_rise_rate := 137 / 50000000
    tidal_range := 31 / 10
    tidal_range_for_veg := 31 / 10
    roughness_with_veg := 1 / 10
    roughness_without_veg := 1 / 50 }

/-- Default parameters except a zero sea-level rise rate, so that one
step leaves `mean_sea_level = 0` and evaluations stay in small rationals. -/
def defaultParamsNoRise : MarshParams :=
  { defaultParams with rel_sl_rise_rate := 0 }

/-- A configuration with a small vegetation tidal range (`0.1 m`), for
which `min_elev_for_veg_growth = 0.0683 > 0.05 = max_elev_for_veg_growth`. -/
def smallTideParams : MarshParams :=
  { defaultParams with tidal_range := 1 / 10, tidal_range_for_veg := 1 / 10 }

/-- The degenerate configuration `tidal_range_for_veg = 92/737 ≈ 0.1248`,
at which `min_elev_for_veg_growth = max_elev_for_veg_growth = 46/737` and
the vegetation normalization denominator is zero. -/
def degenerateParams : MarshParams :=
  { defaultParams with tidal_range := 92 / 737, tidal_range_for_veg := 92 / 737 }

/-- A freshly constructed two-node model with elevations `[1, -1]`
(heights above the initial sea level `0` are `1` and `-1`). -/
def twoNodeState : MarshState :=
  initMarsh [1, -1]

/-- A freshly constructed one-node model with elevation `3/50 = 0.06`. -/
def smallTideState : MarshState :=
  initMarsh [3 / 50]

/-! ### Scalar helper lemmas -/

/-- The per-node water-depth computation of the source equals the spec's
reference algorithm (the only differences are `max x 0` versus `max 0 x`
and the mask write `fwd[fwd < min_depth] = min_depth` versus a `max`
clamp). -/
lemma fully_wet_depth_node_eq_spec (p : MarshParams) (min_depth msl e : ℚ) :
    fully_wet_depth_node p min_depth msl e =
      spec_fully_wet_depth min_depth msl p.tidal_range e := by
  have hd : depth_at_mean_high_water p msl e =
      spec_depth_at_mean_high_water msl p.tidal_range e := by
    simp [depth_at_mean_high_water, spec_depth_at_mean_high_water,
      tidal_half_range, max_comm]
  have hraw : fully_wet_depth_raw p msl e =
      1 / 2 * (spec_depth_at_mean_high_water msl p.tidal_range e
                + max 0 (spec_depth_at_mean_high_water msl p.tidal_range e
                          - p.tidal_range)) := by
    simp [fully_wet_depth_raw, hd, max_comm]
  rw [fully_wet_depth_node, spec_fully_wet_depth, hraw]
  rcases lt_or_le (1 / 2 * (spec_depth_at_mean_high_water msl p.tidal_range e
      + max 0 (spec_depth_at_mean_high_water msl p.tidal_range e
                - p.tidal_range))) min_depth with h | h
  · rw [if_pos h, max_eq_right h.le]
  · rw [if_neg (not_lt.mpr h), max_eq_left h]

/-- Per-node form of claim C1's water-depth equation. -/
lemma water_depth_node_eq_spec (p : MarshParams) (min_depth msl e : ℚ) :
    water_depth_node p min_depth msl e =
      spec_water_depth min_depth msl p.tidal_range e := by
  rw [water_depth_node, spec_water_depth, tidal_half_range,
    fully_wet_depth_node_eq_spec]

/-- The raw (pre-clamp) fully wet depth is nonnegative. -/
lemma fully_wet_depth_raw_nonneg (p : MarshParams) (msl e : ℚ) :
    0 ≤ fully_wet_depth_raw p msl e := by
  have h1 : (0 : ℚ) ≤ depth_at_mean_high_water p msl e := le_max_right _ _
  have h2 : (0 : ℚ) ≤ max (depth_at_mean_high_water p msl e - p.tidal_range) 0 :=
    le_max_right _ _
  rw [fully_wet_depth_raw]
  linarith

/-- The clamped fully wet depth is at least `min_depth`. -/
lemma fully_wet_depth_node_ge (p : MarshParams) (min_depth msl e : ℚ) :
    min_depth ≤ fully_wet_depth_node p min_depth msl e := by
  rw [fully_wet_depth_node]
  split
  · exact le_refl _
  · next h => exact not_lt.mp h

/-- The clamped fully wet depth is nonnegative. -/
lemma fully_wet_depth_node_nonneg (p : MarshParams) (min_depth msl e : ℚ) :
    0 ≤ fully_wet_depth_node p min_depth msl e := by
  rw [fully_wet_depth_node]
  split
  · next h => linarith [fully_wet_depth_raw_nonneg p msl e]
  · exact fully_wet_depth_raw_nonneg p msl e

/-- The per-node water depth is nonnegative. -/
lemma water_depth_node_nonneg (p : MarshParams) (min_depth msl e : ℚ) :
    0 ≤ water_depth_node p min_depth msl e := by
  rw [water_depth_node]
  split
  · exact le_refl 0
  · exact fully_wet_depth_node_nonneg p min_depth msl e

/-- Per-node sign facts for the vegetation update: the index is zero when
the presence mask is false and nonnegative when it is true. -/
lemma vegetation_node_sign (p : MarshParams) (msl e : ℚ) :
    (veg_is_present_node p msl e = false → vegetation_node p msl e = 0) ∧
    (veg_is_present_node p msl e = true → 0 ≤ vegetation_node p msl e) := by
  rw [veg_is_present_node, vegetation_node]
  constructor
  · intro hfalse
    have hle : e - msl ≤ min_elev_for_veg_growth p := by
      simpa using of_decide_eq_false hfalse
    rcases lt_or_eq_of_le hle with hlt | heq
    · rw [if_pos hlt]
    · rw [if_neg (by rw [heq]; exact lt_irrefl _)]
      split
      · rfl
      · rw [heq]
        ring
  · intro htrue
    have hgt : min_elev_for_veg_growth p < e - msl := by
      simpa using of_decide_eq_true htrue
    rw [if_neg (not_lt.mpr hgt.le)]
    split
    · exact le_refl 0
    · next hle =>
      have hM : e - msl ≤ max_elev_for_veg_growth p := not_lt.mp hle
      apply div_nonneg
      · nlinarith
      · positivity

/-! ### Claim theorems -/

/-- C1: for every node `i`, `get_water_depth(min_depth)` computes
`water_depth` and `fully_wet_depth` exactly by the spec's reference
algorithm: `depth_at_mean_high_water[i] = max(0, -elevation[i] +
mean_sea_level + half_range)` with `half_range = tidal_range/2`;
`fully_wet_depth[i] = 0.5 * (depth_at_mean_high_water[i] + max(0,
depth_at_mean_high_water[i] - tidal_range))` clamped below by `min_depth`;
`water_depth[i]` equals that `fully_wet_depth[i]`, except it is `0`
wherever `elevation[i] > mean_sea_level + half_range`. -/
theorem get_water_depth_matches_spec (p : MarshParams) (min_depth : ℚ)
    (s : MarshState) (i : ℕ) :
    (get_water_depth p min_depth s).water_depth[i]? =
      (s.elev[i]?).map
        (spec_water_depth min_depth s.mean_sea_level p.tidal_range) ∧
    (get_water_depth p min_depth s).attrib_fully_wet_depth[i]? =
      (s.elev[i]?).map
        (spec_fully_wet_depth min_depth s.mean_sea_level p.tidal_range) := by
  constructor
  · simp only [get_water_depth, List.getElem?_map]
    cases s.elev[i]? with
    | none => rfl
    | some e => simp [water_depth_node_eq_spec]
  · simp only [get_water_depth, List.getElem?_map]
    cases s.elev[i]? with
    | none => rfl
    | some e => simp [fully_wet_depth_node_eq_spec]

/-- C7: after `get_water_depth`, every node's water depth is nonnegative,
its fully wet depth is at least `min_depth`, and its water depth is zero
whenever its elevation exceeds `mean_sea_level + tidal_range/2` — for
every elevation array, sea level, tidal range and `min_depth`. -/
theorem get_water_depth_invariants (p : MarshParams) (min_depth : ℚ)
    (s : MarshState) (i : ℕ) (e wd fwd : ℚ)
    (he : s.elev[i]? = some e)
    (hwd : (get_water_depth p min_depth s).water_depth[i]? = some wd)
    (hfwd : (get_water_depth p min_depth s).attrib_fully_wet_depth[i]? =
      some fwd) :
    0 ≤ wd ∧ min_depth ≤ fwd ∧
      (e > s.mean_sea_level + p.tidal_range / 2 → wd = 0) := by
  simp only [get_water_depth, List.getElem?_map, he, Option.map_some',
    Option.some.injEq] at hwd hfwd
  refine ⟨?_, ?_, ?_⟩
  · rw [← hwd]
    exact water_depth_node_nonneg p min_depth s.mean_sea_level e
  · rw [← hfwd]
    exact fully_wet_depth_node_ge p min_depth s.mean_sea_level e
  · intro hdry
    rw [← hwd, water_depth_node, if_pos]
    exact hdry

/-- Witness for C7 at the default configuration on a two-node grid with
elevations `[1, -1]` and sea level `0`: node `0` gets water depth and
fully wet depth `11/40`. -/
theorem get_water_depth_invariants_witness :
    twoNodeState.elev[0]? = some 1 ∧
    (get_water_depth defaultParams (1 / 100) twoNodeState).water_depth[0]? =
      some (11 / 40) ∧
    (get_water_depth defaultParams (1 / 100)
        twoNodeState).attrib_fully_wet_depth[0]? = some (11 / 40) ∧
    (0 ≤ (11 / 40 : ℚ) ∧ (1 / 100 : ℚ) ≤ 11 / 40 ∧
      ((1 : ℚ) > twoNodeState.mean_sea_level + defaultParams.tidal_range / 2 →
        (11 / 40 : ℚ) = 0)) := by
  have h1 : twoNodeState.elev[0]? = some 1 := by
    norm_num [twoNodeState, initMarsh]
  have h2 : (get_water_depth defaultParams (1 / 100)
      twoNodeState).water_depth[0]? = some (11 / 40) := by
    norm_num [get_water_depth, twoNodeState, initMarsh, water_depth_node,
      fully_wet_depth_node, fully_wet_depth_raw, depth_at_mean_high_water,
      tidal_half_range, defaultParams]
  have h3 : (get_water_depth defaultParams (1 / 100)
      twoNodeState).attrib_fully_wet_depth[0]? = some (11 / 40) := by
    norm_num [get_water_depth, twoNodeState, initMarsh,
      fully_wet_depth_node, fully_wet_depth_raw, depth_at_mean_high_water,
      tidal_half_range, defaultParams]
  exact ⟨h1, h2, h3,
    get_water_depth_invariants defaultParams (1 / 100) twoNodeState 0 1
      (11 / 40) (11 / 40) h1 h2 h3⟩

/-- C8: `get_water_depth` is idempotent — running it a second time with
unchanged elevation and sea level leaves the whole state (both output
arrays included) exactly as after the first call. -/
theorem get_water_depth_idempotent (p : MarshParams) (min_depth : ℚ)
    (s : MarshState) :
    get_water_depth p min_depth (get_water_depth p min_depth s) =
      get_water_depth p min_depth s :=
  rfl

/-- C10: after `get_water_depth(min_depth)`, every node's water depth is
either exactly `0` or at least `min_depth`; no value lies strictly
between. -/
theorem water_depth_zero_or_ge_min (p : MarshParams) (min_depth : ℚ)
    (s : MarshState) (i : ℕ) (wd : ℚ)
    (hwd : (get_water_depth p min_depth s).water_depth[i]? = some wd) :
    wd = 0 ∨ min_depth ≤ wd := by
  simp only [get_water_depth, List.getElem?_map] at hwd
  cases he : s.elev[i]? with
  | none =>
    rw [he] at hwd
    cases hwd
  | some e =>
    rw [he, Option.map_some', Option.some.injEq] at hwd
    rw [← hwd, water_depth_node]
    split
    · exact Or.inl rfl
    · exact Or.inr (fully_wet_depth_node_ge p min_depth s.mean_sea_level e)

/-- Witness for C10 at the default configuration: node `0` of the
two-node grid has water depth `11/40`, which is at least `1/100`. -/
theorem water_depth_zero_or_ge_min_witness :
    (get_water_depth defaultParams (1 / 100) twoNodeState).water_depth[0]? =
      some (11 / 40) ∧
    ((11 / 40 : ℚ) = 0 ∨ (1 / 100 : ℚ) ≤ 11 / 40) := by
  have h2 : (get_water_depth defaultParams (1 / 100)
      twoNodeState).water_depth[0]? = some (11 / 40) := by
    norm_num [get_water_depth, twoNodeState, initMarsh, water_depth_node,
      fully_wet_depth_node, fully_wet_depth_raw, depth_at_mean_high_water,
      tidal_half_range, defaultParams]
  exact ⟨h2,
    water_depth_zero_or_ge_min defaultParams (1 / 100) twoNodeState 0
      (11 / 40) h2⟩

/-- C2: after `update_vegetation`, each node's presence flag equals
`elevation[i] - mean_sea_level > min_elev_for_veg_growth`, its vegetation
index is `0` whenever the flag is false, and is nonnegative whenever the
flag is true. -/
theorem update_vegetation_sign_invariant (p : MarshParams) (s : MarshState)
    (i : ℕ) (e : ℚ) (b : Bool) (v : ℚ)
    (he : s.elev[i]? = some e)
    (hb : (update_vegetation p s).veg_is_present[i]? = some b)
    (hv : (update_vegetation p s).attrib_vegetation[i]? = some v) :
    b = decide (e - s.mean_sea_level > min_elev_for_veg_growth p) ∧
    (b = false → v = 0) ∧ (b = true → 0 ≤ v) := by
  simp only [update_vegetation, List.getElem?_map, he, Option.map_some',
    Option.some.injEq] at hb hv
  refine ⟨hb.symm, ?_, ?_⟩
  · intro hfalse
    rw [← hv]
    exact (vegetation_node_sign p s.mean_sea_level e).1 (hb ▸ hfalse)
  · intro htrue
    rw [← hv]
    exact (vegetation_node_sign p s.mean_sea_level e).2 (hb ▸ htrue)

/-- Witness for C2 at the default configuration: node `1` of the two-node
grid sits at height `-1`, below the vegetation band, so its flag is false
and its vegetation index is `0`. -/
theorem update_vegetation_sign_invariant_witness :
    twoNodeState.elev[1]? = some (-1 : ℚ) ∧
    (update_vegetation defaultParams twoNodeState).veg_is_present[1]? =
      some false ∧
    (update_vegetation defaultParams twoNodeState).attrib_vegetation[1]? =
      some 0 ∧
    ((false : Bool) = decide ((-1 : ℚ) - twoNodeState.mean_sea_level >
        min_elev_for_veg_growth defaultParams) ∧
      ((false : Bool) = false → (0 : ℚ) = 0) ∧
      ((false : Bool) = true → (0 : ℚ) ≤ 0)) := by
  have h1 : twoNodeState.elev[1]? = some (-1 : ℚ) := by
    norm_num [twoNodeState, initMarsh]
  have h2 : (update_vegetation defaultParams
      twoNodeState).veg_is_present[1]? = some false := by
    norm_num [update_vegetation, twoNodeState, initMarsh,
      veg_is_present_node, min_elev_for_veg_growth, defaultParams]
  have h3 : (update_vegetation defaultParams
      twoNodeState).attrib_vegetation[1]? = some 0 := by
    norm_num [update_vegetation, twoNodeState, initMarsh, vegetation_node,
      min_elev_for_veg_growth, max_elev_for_veg_growth, defaultParams]
  exact ⟨h1, h2, h3,
    update_vegetation_sign_invariant defaultParams twoNodeState 1 (-1)
      false 0 h1 h2 h3⟩

/-- C6: `run_one_step(dt)` advances `mean_sea_level` by exactly
`rel_sl_rise_rate * dt` and then runs `get_water_depth` (with its default
`min_depth = 0.01`), `update_vegetation` and `update_roughness` in that
order: water depth, presence and vegetation are all computed at the
already-advanced sea level, and roughness is mapped from the presence
mask just computed. -/
theorem run_one_step_order (p : MarshParams) (dt : ℚ) (s : MarshState) :
    (run_one_step p dt s).mean_sea_level =
      s.mean_sea_level + p.rel_sl_rise_rate * dt ∧
    run_one_step p dt s =
      update_roughness p (update_vegetation p (get_water_depth p (1 / 100)
        (advance_sea_level p dt s))) ∧
    (run_one_step p dt s).water_depth =
      s.elev.map (water_depth_node p (1 / 100)
        (s.mean_sea_level + p.rel_sl_rise_rate * dt)) ∧
    (run_one_step p dt s).veg_is_present =
      s.elev.map (veg_is_present_node p
        (s.mean_sea_level + p.rel_sl_rise_rate * dt)) ∧
    (run_one_step p dt s).attrib_vegetation =
      s.elev.map (vegetation_node p
        (s.mean_sea_level + p.rel_sl_rise_rate * dt)) ∧
    (run_one_step p dt s).roughness =
      (run_one_step p dt s).veg_is_present.map
        (fun b => if b then p.roughness_with_veg
                  else p.roughness_without_veg) :=
  ⟨rfl, rfl, rfl, rfl, rfl, rfl⟩

/-- C3 (evaluation at the degenerate configuration): with
`tidal_range_for_veg = 92/737 ≈ 0.1248` the constructor performs no
validation — it completes normally, computing
`min_elev_for_veg_growth = max_elev_for_veg_growth = 46/737`, which makes
the vegetation normalization denominator `(min_elev - max_elev)^2`
exactly zero; nothing is rejected at construction time. -/
theorem construction_accepts_degenerate_config :
    min_elev_for_veg_growth degenerateParams = 46 / 737 ∧
    max_elev_for_veg_growth degenerateParams = 46 / 737 ∧
    (min_elev_for_veg_growth degenerateParams
      - max_elev_for_veg_growth degenerateParams) ^ 2 = 0 ∧
    (initMarsh [0]).mean_sea_level = 0 ∧ (initMarsh [0]).elev = [0] := by
  norm_num [min_elev_for_veg_growth, max_elev_for_veg_growth,
    degenerateParams, defaultParams, initMarsh]

/-- C4 (evaluation): after one `run_one_step` on a one-node grid with
elevation `1` (zero rise rate, default tidal parameters), the arrays the
attributes now reference hold the computed values (`11/40` for the fully
wet depth, a positive vegetation index), while the grid's registered
`fully_wet__depth` and `vegetation` field arrays still hold their initial
zeros — lines 121 and 135 rebind the attributes instead of writing the
registered arrays in place.  The three fields written through `[:]` or
mask assignment (`water_depth`, `veg_is_present`, `roughness`) do receive
the step's values. -/
theorem grid_fields_stale_after_step :
    (run_one_step defaultParamsNoRise 1 (initMarsh [1])).grid_fully_wet_depth
      = [0] ∧
    (run_one_step defaultParamsNoRise 1 (initMarsh [1])).attrib_fully_wet_depth
      = [11 / 40] ∧
    (run_one_step defaultParamsNoRise 1 (initMarsh [1])).grid_vegetation
      = [0] ∧
    (run_one_step defaultParamsNoRise 1 (initMarsh [1])).attrib_vegetation
      = [361394000 / 480793329] ∧
    (run_one_step defaultParamsNoRise 1 (initMarsh [1])).water_depth
      = [11 / 40] ∧
    (run_one_step defaultParamsNoRise 1 (initMarsh [1])).veg_is_present
      = [true] ∧
    (run_one_step defaultParamsNoRise 1 (initMarsh [1])).roughness
      = [1 / 10] ∧
    ((0 : ℚ) ≠ 11 / 40 ∧ (0 : ℚ) ≠ 361394000 / 480793329) := by
  norm_num [run_one_step, update_roughness, update_vegetation,
    get_water_depth, advance_sea_level, initMarsh, defaultParamsNoRise,
    defaultParams, water_depth_node, fully_wet_depth_node,
    fully_wet_depth_raw, depth_at_mean_high_water, tidal_half_range,
    vegetation_node, veg_is_present_node, min_elev_for_veg_growth,
    max_elev_for_veg_growth]

/-- C5 counterexample: with `tidal_range_for_veg = 3.1` the constructed
lower vegetation bound is `-(0.237*3.1 - 0.092) = -0.6427` exactly, not
`≈ -0.4237` as claimed — the two differ by `0.219`. -/
theorem default_min_elev_not_neg4237 :
    min_elev_for_veg_growth defaultParams = -(6427 / 10000) ∧
    min_elev_for_veg_growth defaultParams ≠ -(4237 / 10000) ∧
    |min_elev_for_veg_growth defaultParams - -(4237 / 10000)| =
      219 / 1000 := by
  have h : min_elev_for_veg_growth defaultParams = -(6427 / 10000) := by
    norm_num [min_elev_for_veg_growth, defaultParams]
  refine ⟨h, by rw [h]; norm_num, ?_⟩
  rw [h, show (-(6427 / 10000 : ℚ) - -(4237 / 10000)) = -(219 / 1000) by
    norm_num, abs_neg, abs_of_nonneg (by norm_num)]

/-- C5 amended: with `tidal_range_for_veg = 3.1` the bounds are
`min_elev = -0.6427` (exactly; the claim's `≈ -0.4237` is wrong) and
`max_elev = 1.55`; a node at height `1.0` above sea level has a true
presence flag and positive vegetation (`361394000/480793329 ≈ 0.7516`),
and a node at height `-1.0` has a false flag and vegetation `0`. -/
theorem default_veg_bounds_and_examples :
    min_elev_for_veg_growth defaultParams = -(6427 / 10000) ∧
    max_elev_for_veg_growth defaultParams = 31 / 20 ∧
    (update_vegetation defaultParams twoNodeState).veg_is_present[0]? =
      some true ∧
    (update_vegetation defaultParams twoNodeState).attrib_vegetation[0]? =
      some (361394000 / 480793329) ∧
    (0 : ℚ) < 361394000 / 480793329 ∧
    (update_vegetation defaultParams twoNodeState).veg_is_present[1]? =
      some false ∧
    (update_vegetation defaultParams twoNodeState).attrib_vegetation[1]? =
      some 0 := by
  norm_num [update_vegetation, twoNodeState, initMarsh, veg_is_present_node,
    vegetation_node, min_elev_for_veg_growth, max_elev_for_veg_growth,
    defaultParams]

/-- C9 counterexample: with `tidal_range_for_veg = 0.1` the constructor
yields `min_elev = 0.0683 > 0.05 = max_elev`; the node at height
`0.06` lies strictly above `max_elev`, yet `update_vegetation` sets its
presence flag to `false` (not `true` as claimed) and the subsequent
`update_roughness` assigns it the bare roughness `0.02`, not
`roughness_with_veg = 0.1`. -/
theorem veg_above_max_not_present_small_tide :
    min_elev_for_veg_growth smallTideParams = 683 / 10000 ∧
    max_elev_for_veg_growth smallTideParams = 1 / 20 ∧
    smallTideState.elev[0]? = some (3 / 50 : ℚ) ∧
    (3 / 50 : ℚ) - smallTideState.mean_sea_level >
      max_elev_for_veg_growth smallTideParams ∧
    (update_vegetation smallTideParams smallTideState).veg_is_present[0]? =
      some false ∧
    (update_roughness smallTideParams
        (update_vegetation smallTideParams smallTideState)).roughness[0]? =
      some (1 / 50) ∧
    (1 / 50 : ℚ) ≠ smallTideParams.roughness_with_veg := by
  norm_num [update_roughness, update_vegetation, smallTideState, initMarsh,
    veg_is_present_node, min_elev_for_veg_growth, max_elev_for_veg_growth,
    smallTideParams, defaultParams]

/-- C9 amended: provided the constructed bounds satisfy
`min_elev_for_veg_growth ≤ max_elev_for_veg_growth` (true for the default
configuration, and for every `tidal_range_for_veg ≥ 92/737`), every node
whose height above sea level strictly exceeds `max_elev_for_veg_growth`
gets a true presence flag with vegetation `0` from `update_vegetation`,
and a subsequent `update_roughness` assigns it `roughness_with_veg`. -/
theorem veg_above_max_bare_gets_veg_roughness (p : MarshParams)
    (s : MarshState) (i : ℕ) (e : ℚ)
    (hp : min_elev_for_veg_growth p ≤ max_elev_for_veg_growth p)
    (he : s.elev[i]? = some e)
    (hh : e - s.mean_sea_level > max_elev_for_veg_growth p) :
    (update_vegetation p s).veg_is_present[i]? = some true ∧
    (update_vegetation p s).attrib_vegetation[i]? = some 0 ∧
    (update_roughness p (update_vegetation p s)).roughness[i]? =
      some p.roughness_with_veg := by
  have hgt : min_elev_for_veg_growth p < e - s.mean_sea_level :=
    lt_of_le_of_lt hp hh
  have hb : veg_is_present_node p s.mean_sea_level e = true :=
    decide_eq_true hgt
  have hv : vegetation_node p s.mean_sea_level e = 0 := by
    rw [vegetation_node]
    simp only [if_neg (not_lt.mpr hgt.le), if_pos hh]
  refine ⟨?_, ?_, ?_⟩
  · simp [update_vegetation, List.getElem?_map, he, hb]
  · simp [update_vegetation, List.getElem?_map, he, hv]
  · simp [update_roughness, update_vegetation, List.getElem?_map, he, hb]

/-- Witness for the amended C9 at the default configuration: a one-node
grid at elevation `2` (height `2 > 1.55 = max_elev`) gets a true flag,
vegetation `0`, and roughness `0.1`. -/
theorem veg_above_max_bare_witness :
    min_elev_for_veg_growth defaultParams ≤
      max_elev_for_veg_growth defaultParams ∧
    (initMarsh [2]).elev[0]? = some (2 : ℚ) ∧
    (2 : ℚ) - (initMarsh [2]).mean_sea_level >
      max_elev_for_veg_growth defaultParams ∧
    ((update_vegetation defaultParams (initMarsh [2])).veg_is_present[0]? =
        some true ∧
      (update_vegetation defaultParams (initMarsh [2])).attrib_vegetation[0]?
        = some 0 ∧
      (update_roughness defaultParams
          (update_vegetation defaultParams (initMarsh [2]))).roughness[0]? =
        some defaultParams.roughness_with_veg) := by
  have hp : min_elev_for_veg_growth defaultParams ≤
      max_elev_for_veg_growth defaultParams := by
    norm_num [min_elev_for_veg_growth, max_elev_for_veg_growth,
      defaultParams]
  have he : (initMarsh [2]).elev[0]? = some (2 : ℚ) := by
    norm_num [initMarsh]
  have hh : (2 : ℚ) - (initMarsh [2]).mean_sea_level >
      max_elev_for_veg_growth defaultParams := by
    norm_num [initMarsh, max_elev_for_veg_growth, defaultParams]
  exact ⟨hp, he, hh,
    veg_above_max_bare_gets_veg_roughness defaultParams (initMarsh [2]) 0 2
      hp he hh⟩

end MarshEvolver
